import Mathlib

/-!
Verification development for the Land_urbanization repository.

Shallow embedding of:
  * `src/analysis.py`  — `rasterio_open_with_retry`, `compute_indices`, `analyze_image`
  * `src/app.py`       — the NDVI change-detection block (lines 218-226)
  * `src/process_large_image.py` — the output-profile construction of
    `downsample_large_image` (lines 44-62)

Machine floating-point values are modelled as extended rationals with a NaN
element: the claims under study depend only on the NaN / infinity / sign /
comparison behaviour of IEEE arithmetic (all exact here), not on rounding.
-/

/-- Model of a floating-point value: NaN, plus/minus infinity, or a finite
number (modelled as an exact rational; rounding is irrelevant to the claims). -/
inductive F where
  | nan : F
  | inf : F
  | neginf : F
  | fin (q : ℚ) : F
deriving DecidableEq, Repr

/-- IEEE negation. -/
def fneg : F → F
  | .nan => .nan
  | .inf => .neginf
  | .neginf => .inf
  | .fin q => .fin (-q)

/-- IEEE addition (exact on finite values). -/
def fadd : F → F → F
  | .nan, _ => .nan
  | _, .nan => .nan
  | .inf, .neginf => .nan
  | .neginf, .inf => .nan
  | .inf, _ => .inf
  | _, .inf => .inf
  | .neginf, _ => .neginf
  | _, .neginf => .neginf
  | .fin a, .fin b => .fin (a + b)

/-- IEEE subtraction. -/
def fsub (x y : F) : F := fadd x (fneg y)

/-- IEEE division with numpy `errstate` semantics: warnings are suppressed and
degenerate pixels become NaN or infinite (x/0 with x>0 is +inf, 0/0 is NaN). -/
def fdiv : F → F → F
  | .nan, _ => .nan
  | _, .nan => .nan
  | .inf, .inf => .nan
  | .inf, .neginf => .nan
  | .neginf, .inf => .nan
  | .neginf, .neginf => .nan
  | .inf, .fin b => if b < 0 then .neginf else .inf
  | .neginf, .fin b => if b < 0 then .inf else .neginf
  | .fin _, .inf => .fin 0
  | .fin _, .neginf => .fin 0
  | .fin a, .fin b =>
      if b = 0 then (if a = 0 then .nan else if 0 < a then .inf else .neginf)
      else .fin (a / b)

/-- Doubling, for the `2 * green` term of ExG. -/
def fscale2 : F → F
  | .nan => .nan
  | .inf => .inf
  | .neginf => .neginf
  | .fin q => .fin (2 * q)

/-- `np.clip(x, -1.0, 1.0)`: NaN propagates, infinities saturate. -/
def fclip : F → F
  | .nan => .nan
  | .inf => .fin 1
  | .neginf => .fin (-1)
  | .fin q => .fin (max (-1) (min 1 q))

/-- Largest finite float32 value, used by `np.nan_to_num` for infinities. -/
def maxFloat32 : ℚ := 340282346638528859811704183484516925440

/-- `np.nan_to_num(x, nan=0.0)`: NaN becomes 0.0; infinities become the largest
finite float32 values (the numpy defaults for posinf/neginf). -/
def fnanToNum : F → F
  | .nan => .fin 0
  | .inf => .fin maxFloat32
  | .neginf => .fin (-maxFloat32)
  | .fin q => .fin q

/-- Float equality as used by `arr == src.nodata` (NaN compares unequal to
everything, including itself). -/
def feq : F → F → Bool
  | .fin a, .fin b => a == b
  | .inf, .inf => true
  | .neginf, .neginf => true
  | _, _ => false

/-- Float strict greater-than, as used by `before > threshold` (any comparison
with NaN is false). -/
def fgt : F → F → Bool
  | .nan, _ => false
  | _, .nan => false
  | .inf, .inf => false
  | .inf, _ => true
  | _, .inf => false
  | .neginf, _ => false
  | .fin _, .neginf => true
  | .fin a, .fin b => decide (b < a)

/-- `np.isnan`. -/
def fisnan : F → Bool
  | .nan => true
  | _ => false

/-- Membership of a float in the closed interval [-1, 1]; NaN and the
infinities do not lie in the interval. -/
def inRange : F → Bool
  | .fin q => decide (-1 ≤ q) && decide (q ≤ 1)
  | _ => false

/-!
## Raster model and `compute_indices` (src/analysis.py lines 32-89)

A raster is modelled by its band count, its optional nodata sentinel, and the
per-band pixel data of the centered read window (`src.read(idx, window=window)`
flattened to a list; the window geometry itself does not affect any claim).
-/

/-- An opened raster, as seen by `compute_indices`: band count, optional
nodata sentinel, and per-band window data (band indices start at 1). -/
structure Raster where
  count : Nat
  nodata : Option F
  band : Nat → List F

/-- `arr[arr == src.nodata] = np.nan` (applied only when a nodata sentinel is
declared). -/
def maskNodata (nodata : Option F) (arr : List F) : List F :=
  match nodata with
  | none => arr
  | some nd => arr.map (fun x => if feq x nd then .nan else x)

/-- The band-reading loop body: band `idx` is read (with nodata masked to NaN)
exactly when `idx <= src.count`; otherwise the band name stays absent. -/
def readBand (r : Raster) (idx : Nat) : Option (List F) :=
  if idx ≤ r.count then some (maskNodata r.nodata (r.band idx)) else none

/-- NDVI pixel arithmetic: `np.clip((nir - red) / (nir + red), -1.0, 1.0)`. -/
def ndviArr (red nir : List F) : List F :=
  (List.zipWith fdiv (List.zipWith fsub nir red) (List.zipWith fadd nir red)).map fclip

/-- NDBI pixel arithmetic: `np.clip((swir - nir) / (swir + nir), -1.0, 1.0)`. -/
def ndbiArr (nir swir : List F) : List F :=
  (List.zipWith fdiv (List.zipWith fsub swir nir) (List.zipWith fadd swir nir)).map fclip

/-- ExG pixel arithmetic:
`np.nan_to_num((2*green - red - blue) / (red + green + blue), nan=0.0)`. -/
def exgArr (red green blue : List F) : List F :=
  (List.zipWith fdiv
    (List.zipWith fsub (List.zipWith fsub (green.map fscale2) red) blue)
    (List.zipWith fadd (List.zipWith fadd red green) blue)).map fnanToNum

/-- VARI pixel arithmetic:
`np.clip((green - red) / (green + red - blue), -1.0, 1.0)`. -/
def variArr (red green blue : List F) : List F :=
  (List.zipWith fdiv (List.zipWith fsub green red)
    (List.zipWith fsub (List.zipWith fadd green red) blue)).map fclip

/-- The `indices` dictionary of `compute_indices`: each of the four fixed keys
is either a pixel array or absent (`None`). -/
structure IndexResult where
  ndvi : Option (List F)
  ndbi : Option (List F)
  exg : Option (List F)
  vari : Option (List F)
deriving DecidableEq, Repr

/-- The initial value `{ 'ndvi': None, 'ndbi': None, 'exg': None, 'vari': None }`. -/
def IndexResult.allAbsent : IndexResult := ⟨none, none, none, none⟩

/-- The NDVI assignment of `compute_indices`: performed exactly when both the
red and nir bands were read. -/
def ndviStep (r : Raster) : Option (List F) :=
  match readBand r 1, readBand r 4 with
  | some red, some nir => some (ndviArr red nir)
  | _, _ => none

/-- The NDBI assignment: performed exactly when both nir and swir were read. -/
def ndbiStep (r : Raster) : Option (List F) :=
  match readBand r 4, readBand r 5 with
  | some nir, some swir => some (ndbiArr nir swir)
  | _, _ => none

/-- The ExG assignment: performed exactly when red, green and blue were read. -/
def exgStep (r : Raster) : Option (List F) :=
  match readBand r 1, readBand r 2, readBand r 3 with
  | some red, some green, some blue => some (exgArr red green blue)
  | _, _, _ => none

/-- The VARI assignment: performed exactly when red, green and blue were read. -/
def variStep (r : Raster) : Option (List F) :=
  match readBand r 1, readBand r 2, readBand r 3 with
  | some red, some green, some blue => some (variArr red green blue)
  | _, _, _ => none

/-- The point of `compute_indices` at which an exception interrupts execution
(`noExc` = the body runs to completion).  The `try` block executes open, the
band-reading loop, then the four index assignments in NDVI, NDBI, ExG, VARI
order, mutating `indices` as it goes. -/
inductive ExcAt where
  | atOpen
  | atRead
  | atNdvi
  | atNdbi
  | atExg
  | atVari
  | noExc
deriving DecidableEq, Repr

/-- `compute_indices` (src/analysis.py lines 32-89).  The surrounding
`try ... except Exception` catches any exception and the function returns the
`indices` dictionary exactly as filled at the point the exception struck; an
index assignment interrupted mid-computation leaves its key absent. -/
def compute_indices (r : Raster) (e : ExcAt) : IndexResult :=
  match e with
  | .atOpen => .allAbsent
  | .atRead => .allAbsent
  | .atNdvi => .allAbsent
  | .atNdbi => ⟨ndviStep r, none, none, none⟩
  | .atExg => ⟨ndviStep r, ndbiStep r, none, none⟩
  | .atVari => ⟨ndviStep r, ndbiStep r, exgStep r, none⟩
  | .noExc => ⟨ndviStep r, ndbiStep r, exgStep r, variStep r⟩

/-!
## `rasterio_open_with_retry` (src/analysis.py lines 11-24)

The `@contextmanager` generator is modelled as a trace semantics.  Inputs: an
oracle `openOk i` telling whether the `rasterio.open` call of attempt `i`
succeeds (a failing open raises `RasterioIOError`), and the outcome of the
caller's `with`-block body (normal return, or an exception to be thrown into
the generator at the `yield`).  The model records the event trace, the final
outcome of the `with` statement, and which opened handles were never closed.
-/

/-- A Python exception class, as far as the retry logic distinguishes them:
`rasterioError` is `rasterio.errors.RasterioIOError` (the only caught class),
`other` is any other `Exception`, and `genRuntime` is the `RuntimeError` that
`contextlib` raises when a generator misbehaves around a `throw`. -/
inductive PyExc where
  | rasterioError
  | other
  | genRuntime
deriving DecidableEq, Repr

/-- Outcome of a `try`-style block: a normal value or a raised exception. -/
inductive TryResult (α : Type) where
  | ok (a : α)
  | exc (e : PyExc)
deriving DecidableEq, Repr

/-- Observable events of one `with rasterio_open_with_retry(...)` execution. -/
inductive Ev where
  | openAttempt (i : Nat)
  | sleep (secs : Nat)
  | close (i : Nat)
deriving DecidableEq, Repr

/-- Result of running the `with` statement: event trace, outcome (`ok` =
normal completion), and the handles opened but never closed. -/
structure RunResult where
  trace : List Ev
  outcome : TryResult Unit
  leaked : List Nat
deriving DecidableEq, Repr

/-- Continuation of the retry loop after the body's `RasterioIOError` was
thrown into the generator and caught at an earlier, non-final attempt: the
loop sleeps and keeps re-opening.  A further open failure is caught (or
re-raised on the final attempt); a successful open reaches `yield` a second
time, which makes `contextlib` raise `RuntimeError` (generator did not stop
after throw).  `remaining` counts the attempts still allowed. -/
def runThrownAux (openOk : Nat → Bool) (attempt : Nat) : Nat → RunResult
  | 0 => ⟨[], .exc .genRuntime, []⟩
  | remaining + 1 =>
    if openOk attempt then
      ⟨[.openAttempt attempt], .exc .genRuntime, [attempt]⟩
    else
      if remaining = 0 then
        ⟨[.openAttempt attempt], .exc .rasterioError, []⟩
      else
        let rest := runThrownAux openOk (attempt + 1) remaining
        ⟨.openAttempt attempt :: .sleep 1 :: rest.trace, rest.outcome, rest.leaked⟩

/-- One `with rasterio_open_with_retry(path, retries)` execution, starting at
`attempt` with `remaining` attempts allowed.  Semantics of the source:

  * open fails (`RasterioIOError`): re-raised on the final attempt, else
    `time.sleep(1)` and retry;
  * open succeeds and the body returns normally: the generator resumes after
    `yield`, runs `src.close()` and `break`s — the handle is closed;
  * open succeeds and the body raises: the exception is thrown into the
    generator at `yield`, so `src.close()` is never reached.  A
    `RasterioIOError` from the body is caught by the generator's own
    `except` clause (re-raised on the final attempt, else the loop continues
    via `runThrownAux`); any other exception propagates. -/
def runAux (openOk : Nat → Bool) (body : TryResult Unit) (attempt : Nat) : Nat → RunResult
  | 0 => ⟨[], .exc .genRuntime, []⟩
  | remaining + 1 =>
    if openOk attempt then
      match body with
      | .ok _ => ⟨[.openAttempt attempt, .close attempt], .ok (), []⟩
      | .exc e =>
        if e = .rasterioError then
          if remaining = 0 then
            ⟨[.openAttempt attempt], .exc .rasterioError, [attempt]⟩
          else
            let rest := runThrownAux openOk (attempt + 1) remaining
            ⟨.openAttempt attempt :: .sleep 1 :: rest.trace, rest.outcome,
              attempt :: rest.leaked⟩
        else ⟨[.openAttempt attempt], .exc e, [attempt]⟩
    else
      if remaining = 0 then
        ⟨[.openAttempt attempt], .exc .rasterioError, []⟩
      else
        let rest := runAux openOk body (attempt + 1) remaining
        ⟨.openAttempt attempt :: .sleep 1 :: rest.trace, rest.outcome, rest.leaked⟩

/-- `rasterio_open_with_retry(path, retries=3)` used as a context manager
around a body with outcome `body`; `openOk` abstracts the filesystem. -/
def rasterio_open_with_retry (openOk : Nat → Bool) (body : TryResult Unit)
    (retries : Nat) : RunResult :=
  runAux openOk body 0 retries

/-!
## NDVI change-detection block (src/app.py lines 218-226)

`before` and `after` are the two NDVI arrays (flattened); the pixel pairing of
the element-wise numpy operations is `List.zip`.
-/

/-- `before > threshold` for one pixel, with `threshold = 0.2` (the Python
literal `0.2` is modelled as the exact rational 1/5; none of the claims
depends on its binary rounding).  NaN compares as not vegetated. -/
def veg (x : F) : Bool := fgt x (.fin (1/5))

/-- `total_pixels = np.count_nonzero(~np.isnan(before) & ~np.isnan(after))`. -/
def total_pixels (before after : List F) : Nat :=
  ((before.zip after).filter (fun p => !fisnan p.1 && !fisnan p.2)).length

/-- `gain = np.count_nonzero(after_veg & ~before_veg)`. -/
def gain (before after : List F) : Nat :=
  ((before.zip after).filter (fun p => veg p.2 && !veg p.1)).length

/-- `loss = np.count_nonzero(before_veg & ~after_veg)`. -/
def loss (before after : List F) : Nat :=
  ((before.zip after).filter (fun p => veg p.1 && !veg p.2)).length

/-- Modelled from the spec: `unchanged_count`, the pixels that stayed
vegetated or stayed non-vegetated, is named by the specification's
gain/loss accounting identity but is not computed by the code. -/
def unchanged (before after : List F) : Nat :=
  ((before.zip after).filter (fun p => veg p.1 == veg p.2)).length

/-- `gain_pct = (gain / total_pixels * 100) if total_pixels else 0`. -/
def gain_pct (before after : List F) : ℚ :=
  if total_pixels before after = 0 then 0
  else (gain before after : ℚ) / (total_pixels before after : ℚ) * 100

/-- `loss_pct = (loss / total_pixels * 100) if total_pixels else 0`. -/
def loss_pct (before after : List F) : ℚ :=
  if total_pixels before after = 0 then 0
  else (loss before after : ℚ) / (total_pixels before after : ℚ) * 100

/-!
## `downsample_large_image` output profile (src/process_large_image.py 44-62)
-/

/-- An affine transform `rasterio.Affine(a, b, c, d, e, f)`: `a`/`e` are the
pixel-size terms, `b`/`d` the rotation/shear terms, `c`/`f` the origin. -/
structure Affine where
  a : ℚ
  b : ℚ
  c : ℚ
  d : ℚ
  e : ℚ
  f : ℚ
deriving DecidableEq, Repr

/-- The fields of a raster profile that the downsampling tool reads or
updates; `count` and `nodata` stand for the metadata copied verbatim by
`src.profile.copy()`. -/
structure Profile where
  width : Nat
  height : Nat
  count : Nat
  nodata : Option F
  transform : Affine
deriving DecidableEq, Repr

/-- The output-profile construction of `downsample_large_image`
(src/process_large_image.py lines 44-62): copy the source profile and update
width, height and transform. -/
def downsample_output_profile (src : Profile) (scale : Nat) : Profile :=
  { src with
    width := src.width / scale
    height := src.height / scale
    transform :=
      ⟨src.transform.a * scale, src.transform.b, src.transform.c,
       src.transform.d, src.transform.e * scale, src.transform.f⟩ }

/-!
## `analyze_image` (src/analysis.py lines 173-194)

The `try` body (index computation, result assembly, figure rendering) is
abstracted as a `TryResult` over an arbitrary result type; the claims concern
the control flow around it.
-/

/-- Observable outcome of one `analyze_image` call: the returned value, whether
the spooled temporary file still exists afterwards, and the exception (if any)
that propagated past the function's boundary. -/
structure AnalyzeOutcome (α : Type) where
  result : Option α
  tempExists : Bool
  raised : Option PyExc
deriving DecidableEq, Repr

/-- `analyze_image(uploaded_file)` (src/analysis.py lines 173-194).
`uploaded = false` models a falsy `uploaded_file` (early `return None`,
no temporary file created).  Otherwise the content is spooled to a temporary
file and the `try` body runs with outcome `body`; `tempExistsAtCatch` models
the `os.path.exists(path)` check in the `except` clause (the handler unlinks
the file only when it still exists).  `except Exception` catches every
exception, so nothing is ever raised past the boundary. -/
def analyze_image {α : Type} (uploaded : Bool) (body : TryResult α)
    (tempExistsAtCatch : Bool) : AnalyzeOutcome α :=
  if uploaded then
    match body with
    | .ok res => ⟨some res, true, none⟩
    | .exc _ => ⟨none, if tempExistsAtCatch then false else tempExistsAtCatch, none⟩
  else ⟨none, false, none⟩

/-!
## Shared lemmas
-/

/-- Clipping yields NaN or a value in [-1, 1]. -/
theorem fclip_nan_or_inRange (y : F) : fclip y = F.nan ∨ inRange (fclip y) = true := by
  cases y with
  | nan => exact Or.inl rfl
  | inf => right; rfl
  | neginf => right; rfl
  | fin q =>
    right
    simp only [fclip, inRange, Bool.and_eq_true, decide_eq_true_eq]
    exact ⟨le_max_left _ _, max_le (by norm_num) (min_le_left _ _)⟩

/-- `np.nan_to_num` never returns NaN. -/
theorem fnanToNum_ne_nan (y : F) : fnanToNum y ≠ F.nan := by
  cases y <;> simp [fnanToNum]

/-- Every element of a clipped array is NaN or in [-1, 1]. -/
theorem mem_map_fclip (l : List F) : ∀ x ∈ l.map fclip, x = F.nan ∨ inRange x = true := by
  intro x hx
  rcases List.mem_map.mp hx with ⟨y, _, rfl⟩
  exact fclip_nan_or_inRange y

/-- The ndvi field of any `compute_indices` result is absent or the NDVI step. -/
theorem compute_indices_ndvi_cases (r : Raster) (e : ExcAt) :
    (compute_indices r e).ndvi = none ∨ (compute_indices r e).ndvi = ndviStep r := by
  cases e <;> simp [compute_indices, IndexResult.allAbsent]

/-- The ndbi field of any `compute_indices` result is absent or the NDBI step. -/
theorem compute_indices_ndbi_cases (r : Raster) (e : ExcAt) :
    (compute_indices r e).ndbi = none ∨ (compute_indices r e).ndbi = ndbiStep r := by
  cases e <;> simp [compute_indices, IndexResult.allAbsent]

/-- The exg field of any `compute_indices` result is absent or the ExG step. -/
theorem compute_indices_exg_cases (r : Raster) (e : ExcAt) :
    (compute_indices r e).exg = none ∨ (compute_indices r e).exg = exgStep r := by
  cases e <;> simp [compute_indices, IndexResult.allAbsent]

/-- The vari field of any `compute_indices` result is absent or the VARI step. -/
theorem compute_indices_vari_cases (r : Raster) (e : ExcAt) :
    (compute_indices r e).vari = none ∨ (compute_indices r e).vari = variStep r := by
  cases e <;> simp [compute_indices, IndexResult.allAbsent]

/-- A produced NDVI array is a clipped array. -/
theorem ndviStep_eq_map (r : Raster) (arr : List F) (h : ndviStep r = some arr) :
    ∃ l : List F, arr = List.map fclip l := by
  unfold ndviStep at h
  cases h1 : readBand r 1 <;> cases h4 : readBand r 4 <;> rw [h1, h4] at h <;>
    simp only [reduceCtorEq, Option.some.injEq] at h
  exact ⟨_, h.symm⟩

/-- A produced NDBI array is a clipped array. -/
theorem ndbiStep_eq_map (r : Raster) (arr : List F) (h : ndbiStep r = some arr) :
    ∃ l : List F, arr = List.map fclip l := by
  unfold ndbiStep at h
  cases h4 : readBand r 4 <;> cases h5 : readBand r 5 <;> rw [h4, h5] at h <;>
    simp only [reduceCtorEq, Option.some.injEq] at h
  exact ⟨_, h.symm⟩

/-- A produced VARI array is a clipped array. -/
theorem variStep_eq_map (r : Raster) (arr : List F) (h : variStep r = some arr) :
    ∃ l : List F, arr = List.map fclip l := by
  unfold variStep at h
  cases h1 : readBand r 1 <;> cases h2 : readBand r 2 <;> cases h3 : readBand r 3 <;>
    rw [h1, h2, h3] at h <;> simp only [reduceCtorEq, Option.some.injEq] at h
  exact ⟨_, h.symm⟩

/-- A produced ExG array is a NaN-replaced array. -/
theorem exgStep_eq_map (r : Raster) (arr : List F) (h : exgStep r = some arr) :
    ∃ l : List F, arr = List.map fnanToNum l := by
  unfold exgStep at h
  cases h1 : readBand r 1 <;> cases h2 : readBand r 2 <;> cases h3 : readBand r 3 <;>
    rw [h1, h2, h3] at h <;> simp only [reduceCtorEq, Option.some.injEq] at h
  exact ⟨_, h.symm⟩

/-- A 5-band raster whose window reads as a single pixel of value 1. -/
def r5one : Raster := ⟨5, none, fun _ => [F.fin 1]⟩

/-- A 5-band raster whose window reads as a single pixel of value 0. -/
def r5zero : Raster := ⟨5, none, fun _ => [F.fin 0]⟩

/-- A 3-band (red/green/blue only) raster with a single pixel of value 1. -/
def r3one : Raster := ⟨3, none, fun _ => [F.fin 1]⟩

/-- On the all-zero raster the NDVI pixel is 0/0, so the clipped array is
`[NaN]`. -/
theorem r5zero_ndvi_eval :
    (compute_indices r5zero ExcAt.noExc).ndvi = some [F.nan] := by
  show ndviStep r5zero = some [F.nan]
  simp [ndviStep, readBand, r5zero, maskNodata, ndviArr, fclip, fdiv, fsub, fadd, fneg]

/-- On the all-zero raster the ExG pixel is 0/0, and `np.nan_to_num` turns the
NaN into 0.0. -/
theorem r5zero_exg_eval :
    (compute_indices r5zero ExcAt.noExc).exg = some [F.fin 0] := by
  show exgStep r5zero = some [F.fin 0]
  simp [exgStep, readBand, r5zero, maskNodata, exgArr, fnanToNum, fdiv, fsub, fadd,
    fneg, fscale2]

/-!
## Claim C1
-/

/-- Claim C1, counterexample: on a 5-band raster of constant pixel value 1, an
exception striking during the VARI computation (after NDVI, NDBI and ExG were
assigned) is caught but the returned mapping is not the all-absent
IndexResult — the earlier indices are retained. -/
theorem C1_counterexample :
    compute_indices r5one ExcAt.atVari ≠ IndexResult.allAbsent := by decide

/-- Claim C1 (amended): any exception is caught and `compute_indices` returns
the indices assigned before the point of failure.  An exception during
opening, band reads, or the first (NDVI) computation yields the all-absent
result; an exception during a later index computation returns the
already-assigned indices, which need not all be absent. -/
theorem C1_exception_caught_partial_result (r : Raster) (e : ExcAt) :
    ((e = .atOpen ∨ e = .atRead ∨ e = .atNdvi) →
      compute_indices r e = IndexResult.allAbsent) ∧
    (compute_indices r .atNdbi).ndvi = ndviStep r ∧
    (compute_indices r .atVari).ndvi = ndviStep r ∧
    (compute_indices r .atVari).ndbi = ndbiStep r ∧
    (compute_indices r .atVari).exg = exgStep r ∧
    (compute_indices r .atVari).vari = none := by
  refine ⟨?_, rfl, rfl, rfl, rfl, rfl⟩
  rintro (rfl | rfl | rfl) <;> rfl

/-- Claim C1, witness: an exception at open on the 3-band raster yields the
all-absent result. -/
theorem C1_witness :
    compute_indices r3one ExcAt.atOpen = IndexResult.allAbsent :=
  (C1_exception_caught_partial_result r3one ExcAt.atOpen).1 (Or.inl rfl)

/-!
## Claim C4
-/

/-- Claim C4, counterexample: with nir = red = 0 (a 0/0 pixel), the NDVI array
returned by `compute_indices` contains NaN, which does not lie in the closed
interval [-1, 1]. -/
theorem C4_counterexample :
    (compute_indices r5zero ExcAt.noExc).ndvi = some [F.nan] ∧
      inRange F.nan = false :=
  ⟨r5zero_ndvi_eval, rfl⟩

/-- Claim C4 (amended): every element of the NDVI, NDBI and VARI arrays
returned by `compute_indices` is either NaN (arising from 0/0 pixels or NaN
inputs, since clipping propagates NaN) or lies within the closed interval
[-1, 1]. -/
theorem C4_clamped_or_nan (r : Raster) (e : ExcAt) (arr : List F) :
    ((compute_indices r e).ndvi = some arr →
      ∀ x ∈ arr, x = F.nan ∨ inRange x = true) ∧
    ((compute_indices r e).ndbi = some arr →
      ∀ x ∈ arr, x = F.nan ∨ inRange x = true) ∧
    ((compute_indices r e).vari = some arr →
      ∀ x ∈ arr, x = F.nan ∨ inRange x = true) := by
  refine ⟨fun h => ?_, fun h => ?_, fun h => ?_⟩
  · rcases compute_indices_ndvi_cases r e with hc | hc <;> rw [hc] at h
    · exact absurd h (by simp)
    · rcases ndviStep_eq_map r arr h with ⟨l, rfl⟩
      exact mem_map_fclip l
  · rcases compute_indices_ndbi_cases r e with hc | hc <;> rw [hc] at h
    · exact absurd h (by simp)
    · rcases ndbiStep_eq_map r arr h with ⟨l, rfl⟩
      exact mem_map_fclip l
  · rcases compute_indices_vari_cases r e with hc | hc <;> rw [hc] at h
    · exact absurd h (by simp)
    · rcases variStep_eq_map r arr h with ⟨l, rfl⟩
      exact mem_map_fclip l

/-- Claim C4, witness: on the all-zero raster the NDVI array is `[NaN]` and
its single element satisfies the amended disjunction. -/
theorem C4_witness :
    (compute_indices r5zero ExcAt.noExc).ndvi = some [F.nan] ∧
      (F.nan = F.nan ∨ inRange F.nan = true) :=
  ⟨r5zero_ndvi_eval,
    (C4_clamped_or_nan r5zero ExcAt.noExc [F.nan]).1 r5zero_ndvi_eval F.nan (by simp)⟩

/-!
## Claim C6
-/

/-- Claim C6: on any raster with exactly the red, green and blue bands,
`compute_indices` leaves NDVI and NDBI absent while ExG and VARI are present;
in general an index whose required bands are unavailable is left absent. -/
theorem C6_band_availability_gating (r : Raster) (h : r.count = 3) :
    (compute_indices r .noExc).ndvi = none ∧
    (compute_indices r .noExc).ndbi = none ∧
    (compute_indices r .noExc).exg ≠ none ∧
    (compute_indices r .noExc).vari ≠ none ∧
    (∀ (s : Raster) (e : ExcAt), s.count < 4 → (compute_indices s e).ndvi = none) ∧
    (∀ (s : Raster) (e : ExcAt), s.count < 5 → (compute_indices s e).ndbi = none) ∧
    (∀ (s : Raster) (e : ExcAt), s.count < 3 →
      (compute_indices s e).exg = none ∧ (compute_indices s e).vari = none) := by
  have hndvi : ∀ (s : Raster), s.count < 4 → ndviStep s = none := by
    intro s hs
    have h4 : readBand s 4 = none := by simp [readBand]; omega
    unfold ndviStep
    rw [h4]
    cases readBand s 1 <;> rfl
  have hndbi : ∀ (s : Raster), s.count < 5 → ndbiStep s = none := by
    intro s hs
    have h5 : readBand s 5 = none := by simp [readBand]; omega
    unfold ndbiStep
    rw [h5]
    cases readBand s 4 <;> rfl
  have hexg : ∀ (s : Raster), s.count < 3 → exgStep s = none := by
    intro s hs
    have h3 : readBand s 3 = none := by simp [readBand]; omega
    unfold exgStep
    rw [h3]
    cases readBand s 1 <;> cases readBand s 2 <;> rfl
  have hvari : ∀ (s : Raster), s.count < 3 → variStep s = none := by
    intro s hs
    have h3 : readBand s 3 = none := by simp [readBand]; omega
    unfold variStep
    rw [h3]
    cases readBand s 1 <;> cases readBand s 2 <;> rfl
  have h1 : readBand r 1 = some (maskNodata r.nodata (r.band 1)) := by
    simp [readBand]; omega
  have h2 : readBand r 2 = some (maskNodata r.nodata (r.band 2)) := by
    simp [readBand]; omega
  have h3 : readBand r 3 = some (maskNodata r.nodata (r.band 3)) := by
    simp [readBand]; omega
  refine ⟨?_, ?_, ?_, ?_, ?_, ?_, ?_⟩
  · show ndviStep r = none
    exact hndvi r (by omega)
  · show ndbiStep r = none
    exact hndbi r (by omega)
  · show exgStep r ≠ none
    unfold exgStep
    rw [h1, h2, h3]
    simp
  · show variStep r ≠ none
    unfold variStep
    rw [h1, h2, h3]
    simp
  · intro s e hs
    rcases compute_indices_ndvi_cases s e with hc | hc <;> rw [hc]
    exact hndvi s hs
  · intro s e hs
    rcases compute_indices_ndbi_cases s e with hc | hc <;> rw [hc]
    exact hndbi s hs
  · intro s e hs
    constructor
    · rcases compute_indices_exg_cases s e with hc | hc <;> rw [hc]
      exact hexg s hs
    · rcases compute_indices_vari_cases s e with hc | hc <;> rw [hc]
      exact hvari s hs

/-- Claim C6, witness: the 3-band raster has NDVI absent and ExG present. -/
theorem C6_witness :
    (compute_indices r3one ExcAt.noExc).ndvi = none ∧
      (compute_indices r3one ExcAt.noExc).exg ≠ none :=
  ⟨(C6_band_availability_gating r3one rfl).1,
    (C6_band_availability_gating r3one rfl).2.2.1⟩

/-!
## Claim C7
-/

/-- Claim C7: the ExG array returned by `compute_indices` never contains NaN:
every NaN produced by the arithmetic is replaced with 0.0 (and infinities with
the largest finite float32 values). -/
theorem C7_exg_never_nan (r : Raster) (e : ExcAt) (arr : List F)
    (h : (compute_indices r e).exg = some arr) : ∀ x ∈ arr, x ≠ F.nan := by
  rcases compute_indices_exg_cases r e with hc | hc <;> rw [hc] at h
  · exact absurd h (by simp)
  · rcases exgStep_eq_map r arr h with ⟨l, rfl⟩
    intro x hx
    rcases List.mem_map.mp hx with ⟨y, _, rfl⟩
    exact fnanToNum_ne_nan y

/-- Claim C7, witness: on the all-zero raster (every ExG pixel is 0/0) the
returned ExG array is `[0.0]`, and its element is not NaN. -/
theorem C7_witness :
    (compute_indices r5zero ExcAt.noExc).exg = some [F.fin 0] ∧
      F.fin 0 ≠ F.nan :=
  ⟨r5zero_exg_eval,
    C7_exg_never_nan r5zero ExcAt.noExc [F.fin 0] r5zero_exg_eval (F.fin 0) (by simp)⟩

/-!
## Claim C2
-/

/-- Claim C2: against a path whose open always raises a raster-I/O failure,
`rasterio_open_with_retry` with retries = 3 performs exactly three open
attempts with a 1-second sleep between consecutive attempts, and after the
final failed attempt the raster-I/O error propagates to the caller. -/
theorem C2_retry_exhaustion (openOk : Nat → Bool) (body : TryResult Unit)
    (h : ∀ i, openOk i = false) :
    rasterio_open_with_retry openOk body 3 =
      ⟨[.openAttempt 0, .sleep 1, .openAttempt 1, .sleep 1, .openAttempt 2],
        .exc .rasterioError, []⟩ := by
  simp [rasterio_open_with_retry, runAux, h 0, h 1, h 2]

/-- Claim C2, witness: the always-failing open oracle. -/
theorem C2_witness :
    rasterio_open_with_retry (fun _ => false) (.ok ()) 3 =
      ⟨[.openAttempt 0, .sleep 1, .openAttempt 1, .sleep 1, .openAttempt 2],
        .exc .rasterioError, []⟩ :=
  C2_retry_exhaustion (fun _ => false) (.ok ()) (fun _ => rfl)

/-!
## Claim C3
-/

/-- Claim C3, counterexample: the first open succeeds and the caller's block
raises a non-raster-I/O exception; the trace contains no close event and the
handle of attempt 0 is never closed, because `src.close()` sits after the
`yield` on the normal path only. -/
theorem C3_counterexample :
    (rasterio_open_with_retry (fun _ => true) (.exc .other) 3).trace =
      [Ev.openAttempt 0] ∧
    (rasterio_open_with_retry (fun _ => true) (.exc .other) 3).leaked = [0] := by
  constructor <;> rfl

/-- Claim C3 (amended): when the open succeeds and the scoped block exits
normally, the handle is closed by the time the block exits; but when the
block exits by raising an exception, the handle is not closed — the generator
only reaches `src.close()` on the normal path. -/
theorem C3_close_only_on_normal_exit (openOk : Nat → Bool) (body : TryResult Unit) :
    (body = .ok () → (rasterio_open_with_retry openOk body 3).leaked = []) ∧
    (openOk 0 = true → ∀ e : PyExc, body = .exc e →
      (rasterio_open_with_retry openOk body 3).leaked ≠ []) := by
  constructor
  · rintro rfl
    cases h0 : openOk 0 <;> cases h1 : openOk 1 <;> cases h2 : openOk 2 <;>
      simp [rasterio_open_with_retry, runAux, h0, h1, h2]
  · rintro h0 e rfl
    cases e <;> simp [rasterio_open_with_retry, runAux, runThrownAux, h0]

/-- Claim C3, witness: with a succeeding open, a normal block exit leaks no
handle, while a raising block leaves an unclosed handle. -/
theorem C3_witness :
    (rasterio_open_with_retry (fun _ => true) (.ok ()) 3).leaked = [] ∧
    (rasterio_open_with_retry (fun _ => true) (.exc PyExc.other) 3).leaked ≠ [] :=
  ⟨(C3_close_only_on_normal_exit (fun _ => true) (.ok ())).1 rfl,
    (C3_close_only_on_normal_exit (fun _ => true) (.exc PyExc.other)).2 rfl
      PyExc.other rfl⟩

/-!
## Claim C5
-/

/-- Gain, loss and unchanged classify every pixel pair exactly once. -/
theorem filter_three_partition (l : List (F × F)) :
    (l.filter (fun p => veg p.2 && !veg p.1)).length +
      (l.filter (fun p => veg p.1 && !veg p.2)).length +
      (l.filter (fun p => veg p.1 == veg p.2)).length = l.length := by
  induction l with
  | nil => rfl
  | cons p t ih =>
    cases hv1 : veg p.1 <;> cases hv2 : veg p.2 <;>
      simp [List.filter_cons, hv1, hv2] <;> omega

/-- Claim C5, counterexample: a pixel that is NaN before and vegetated after is
counted as gain but is not a valid pixel, so gain + loss + unchanged exceeds
the valid-pixel count. -/
theorem C5_counterexample :
    gain [F.nan] [F.fin 1] + loss [F.nan] [F.fin 1] +
        unchanged [F.nan] [F.fin 1] ≠ total_pixels [F.nan] [F.fin 1] := by
  have hveg : veg (F.fin 1) = true := by norm_num [veg, fgt]
  simp [gain, loss, unchanged, total_pixels, List.filter_cons, hveg, fisnan, veg, fgt]

/-- Claim C5 (amended): gain count + loss count + unchanged count equals the
total pixel count; it equals the valid-pixel count whenever no pixel of either
array is NaN (in the presence of NaN pixels the identity can fail, since the
vegetation masks count NaN-paired pixels while the valid denominator excludes
them).  Gain and loss percentages use the valid-pixel count as denominator and
are 0 when there are no valid pixels. -/
theorem C5_gain_loss_accounting (before after : List F) :
    gain before after + loss before after + unchanged before after =
      (before.zip after).length ∧
    ((∀ x ∈ before, fisnan x = false) → (∀ x ∈ after, fisnan x = false) →
      gain before after + loss before after + unchanged before after =
        total_pixels before after) ∧
    (total_pixels before after = 0 →
      gain_pct before after = 0 ∧ loss_pct before after = 0) := by
  have hpart := filter_three_partition (before.zip after)
  refine ⟨hpart, fun hb ha => ?_, fun h0 => ?_⟩
  · have hvalid : total_pixels before after = (before.zip after).length := by
      unfold total_pixels
      rw [List.filter_eq_self.mpr]
      rintro ⟨a, b⟩ hp
      obtain ⟨h1, h2⟩ := List.of_mem_zip hp
      simp [hb a h1, ha b h2]
    rw [hvalid]
    exact hpart
  · constructor
    · unfold gain_pct
      rw [if_pos h0]
    · unfold loss_pct
      rw [if_pos h0]

/-- Claim C5, witness: a NaN-free pair of single-pixel arrays. -/
theorem C5_witness :
    gain [F.fin 1] [F.fin 0] + loss [F.fin 1] [F.fin 0] +
        unchanged [F.fin 1] [F.fin 0] = total_pixels [F.fin 1] [F.fin 0] :=
  (C5_gain_loss_accounting [F.fin 1] [F.fin 0]).2.1
    (by intro x hx; simp at hx; simp [hx, fisnan])
    (by intro x hx; simp at hx; simp [hx, fisnan])

/-!
## Claim C8
-/

/-- Claim C8: whenever the `try` body of `analyze_image` raises after the
upload was spooled to a temporary file, the temporary file is deleted (when it
still exists), the function returns absent rather than a partial result, and
no exception propagates past the function's boundary. -/
theorem C8_failure_cleanup {α : Type} (body : TryResult α) (e : PyExc)
    (tempExistsAtCatch : Bool) (h : body = .exc e) :
    analyze_image true body tempExistsAtCatch =
      ⟨none, false, none⟩ := by
  subst h
  cases tempExistsAtCatch <;> rfl

/-- Claim C8, witness: a failing body with the temporary file still present. -/
theorem C8_witness :
    analyze_image true (TryResult.exc PyExc.other : TryResult Nat) true =
      ⟨none, false, none⟩ :=
  C8_failure_cleanup (TryResult.exc PyExc.other : TryResult Nat) PyExc.other true rfl

/-!
## Claim C9
-/

/-- Claim C9: for every source profile of width W and height H and every scale
factor S, the downsampling tool's output profile has width W / S and height
H / S (integer division), pixel-size transform terms multiplied by S,
rotation/shear terms and origin unchanged, and all other profile metadata
copied from the source. -/
theorem C9_downsample_profile (src : Profile) (scale : Nat) :
    (downsample_output_profile src scale).width = src.width / scale ∧
    (downsample_output_profile src scale).height = src.height / scale ∧
    (downsample_output_profile src scale).transform.a = src.transform.a * scale ∧
    (downsample_output_profile src scale).transform.e = src.transform.e * scale ∧
    (downsample_output_profile src scale).transform.b = src.transform.b ∧
    (downsample_output_profile src scale).transform.d = src.transform.d ∧
    (downsample_output_profile src scale).transform.c = src.transform.c ∧
    (downsample_output_profile src scale).transform.f = src.transform.f ∧
    (downsample_output_profile src scale).count = src.count ∧
    (downsample_output_profile src scale).nodata = src.nodata :=
  ⟨rfl, rfl, rfl, rfl, rfl, rfl, rfl, rfl, rfl, rfl⟩

/-!
## Claim C10
-/

/-- Claim C10: a pixel is vegetated exactly when its NDVI value is strictly
greater than 0.2 (a pixel exactly at 0.2 is non-vegetated), NaN compares as
non-vegetated, and a pixel that is NaN in one array but vegetated in the other
is counted in the gain count (NaN before) or the loss count (NaN after) while
being excluded from the valid-pixel denominator. -/
theorem C10_nan_pixels_counted :
    (∀ q : ℚ, veg (F.fin q) = true ↔ 1/5 < q) ∧
    veg F.nan = false ∧
    (∀ b a : F, fisnan b = true → veg a = true →
      gain [b] [a] = 1 ∧ loss [b] [a] = 0 ∧ total_pixels [b] [a] = 0) ∧
    (∀ b a : F, fisnan a = true → veg b = true →
      loss [b] [a] = 1 ∧ gain [b] [a] = 0 ∧ total_pixels [b] [a] = 0) := by
  have hnanveg : veg F.nan = false := rfl
  refine ⟨fun q => ?_, rfl, fun b a hb ha => ?_, fun b a hb ha => ?_⟩
  · simp [veg, fgt]
  · cases b <;> simp [fisnan] at hb
    simp [gain, loss, total_pixels, List.filter_cons, ha, hnanveg, fisnan]
  · cases a <;> simp [fisnan] at hb
    simp [gain, loss, total_pixels, List.filter_cons, ha, hnanveg, fisnan]

/-- Claim C10, witness: a pixel NaN before and 1.0 after counts as gain and is
excluded from the valid denominator. -/
theorem C10_witness :
    gain [F.nan] [F.fin 1] = 1 ∧ loss [F.nan] [F.fin 1] = 0 ∧
      total_pixels [F.nan] [F.fin 1] = 0 :=
  C10_nan_pixels_counted.2.2.1 F.nan (F.fin 1) rfl (by norm_num [veg, fgt])
